import Mathlib

/-!
Verification of the resilient HTTP fetch layer (retry classifier, backoff
engine, fetch façade) of the Surge repository, shallowly embedded in Lean.

The embedding follows `src/unnamed/part_000`:
* the custom `retry` callback handed to the retry interceptor
  (`interceptors.retry({...})`, lines 25–103) becomes `Surge.retryClassifier`;
* `calculateRetryAfterHeader` (lines 109–112) is embedded with the HTTP-date
  parser and the current clock abstracted as parameters `dateMs` and `now`
  (the JavaScript `new Date(s).getTime()` and `Date.now()`);
* `ResponseError` (lines 114–134) and `fetchWithLog` (lines 142–169) become
  `Surge.ResponseError`, `Surge.fetchCheckResponse` (the response-status
  check in the `try` block) and `Surge.fetchCatchLog` (the `catch` block's
  logging behaviour).

JavaScript numbers are modelled by `Nat`/`Int` (all configured timeouts,
counters and status codes are small non-negative integers; only the
Retry-After date arithmetic can go negative, hence `Int` there).
`Number(s)` applied to the Retry-After header is modelled by
`Surge.jsHeaderNumber`, which agrees with JavaScript on the non-negative
decimal strings such a header carries; a string `Number` maps to NaN is
modelled by `none`, which sends the code to the HTTP-date branch.  An invalid HTTP date (NaN in
JavaScript, which then fails the `retryAfter > 0` test) is outside the model:
`dateMs` is an arbitrary total function, and theorems about the date branch
hypothesise the parsed value explicitly.
-/

namespace Surge

/-- The error object probed by the retry callback (duck-typed field probing
in the source, lines 33–35): `statusCode` when present and numeric, `code`
when present, `headers` when present and an object, plus `message` and
`name` which every JS `Error` carries. -/
structure ErrObj where
  statusCode : Option Int := none
  code : Option String := none
  message : String := ""
  name : String := "Error"
  headers : Option (List (String × String)) := none
deriving DecidableEq, Repr

/-- The per-request `retryOptions` object destructured at lines 54–60: every
field optional, defaults applied at the destructuring site. -/
structure RetryOptionsIn where
  maxRetries : Option Nat := none
  minTimeout : Option Nat := none
  maxTimeout : Option Nat := none
  timeoutFactor : Option Nat := none
  methods : Option (List String) := none
deriving DecidableEq, Repr

/-- The dispatch options the retry callback receives (`const { method,
retryOptions = {} } = opts`, line 52). -/
structure DispatchOpts where
  method : String
  retryOptions : Option RetryOptionsIn := none
deriving DecidableEq, Repr

/-- Outcome of one invocation of the retry callback: `fail` is `cb(err)`
(the original error propagates, no retry); `retryIn d` is
`setTimeout(() => cb(null), d)` (a retry scheduled after `d` ms). -/
inductive RetryDecision where
  | fail
  | retryIn (delayMs : Int)
deriving DecidableEq, Repr

/-- `calculateRetryAfterHeader` (source lines 109–112):
`new Date(retryAfter).getTime() - Date.now()`, with the date parser and the
clock abstracted as `dateMs` and `now`. -/
def calculateRetryAfterHeader (dateMs : String → Int) (now : Int)
    (retryAfter : String) : Int :=
  dateMs retryAfter - now

/-- `Number(retryAfterHeader)` restricted to the strings such a header can
carry: a nonempty all-digit string parses to its decimal value, as
JavaScript's `Number` does; any other string is NaN, modelled by `none`. -/
def jsHeaderNumber (s : String) : Option Nat :=
  if s.toList ≠ [] ∧ s.toList.all Char.isDigit = true then
    some (s.toList.foldl (fun acc c => acc * 10 + (c.toNat - 48)) 0)
  else
    none

/-- Lines 88–91: `Number(retryAfterHeader)` — numeric means seconds, scaled
by 1000; NaN (modelled by `none`) falls back to
`calculateRetryAfterHeader`. -/
def parseRetryAfter (dateMs : String → Int) (now : Int) (h : String) : Int :=
  match jsHeaderNumber h with
  | some n => (n : Int) * 1000
  | none => calculateRetryAfterHeader dateMs now h

/-- Lines 85–92: extract `headers?.['retry-after']`; the sentinel `-1`
stands when the header is absent or the empty string (falsy in JS). -/
def retryAfterOf (dateMs : String → Int) (now : Int) (err : ErrObj) : Int :=
  match err.headers.bind (fun hs => List.lookup "retry-after" hs) with
  | some h => if h ≠ "" then parseRetryAfter dateMs now h else -1
  | none => -1

/-- Effective retry options after the destructuring defaults of
lines 52–60 (`retryOptions = {}` then per-field defaults). -/
def effMaxRetries (opts : DispatchOpts) : Nat :=
  (opts.retryOptions.getD {}).maxRetries.getD 5

def effMinTimeout (opts : DispatchOpts) : Nat :=
  (opts.retryOptions.getD {}).minTimeout.getD 500

def effMaxTimeout (opts : DispatchOpts) : Nat :=
  (opts.retryOptions.getD {}).maxTimeout.getD (30 * 1000)

def effTimeoutFactor (opts : DispatchOpts) : Nat :=
  (opts.retryOptions.getD {}).timeoutFactor.getD 2

def effMethods (opts : DispatchOpts) : List String :=
  (opts.retryOptions.getD {}).methods.getD
    ["GET", "HEAD", "OPTIONS", "PUT", "DELETE", "TRACE"]

/-- Lines 94–97: the delay finally scheduled, given the parsed
`retryAfter` value. -/
def retryTimeoutOf (opts : DispatchOpts) (counter : Nat) (retryAfter : Int) :
    Int :=
  if retryAfter > 0 then
    min retryAfter (effMaxTimeout opts : Int)
  else
    ((min (effMinTimeout opts * effTimeoutFactor opts ^ (counter - 1))
        (effMaxTimeout opts) : Nat) : Int)

/-- The custom `retry` callback installed at lines 32–101, as a pure
decision function of the error, the retry-state `counter` and the dispatch
options (plus the abstracted date parser and clock). -/
def retryClassifier (dateMs : String → Int) (now : Int) (err : ErrObj)
    (counter : Nat) (opts : DispatchOpts) : RetryDecision :=
  -- lines 40–46: malformed path / explicit abort
  if err.code = some "ERR_UNESCAPED_CHARACTERS"
      ∨ err.message = "Request path contains unescaped characters"
      ∨ err.name = "AbortError" then
    .fail
  -- lines 48–50: only connection-layer retry requests are considered
  else if err.code ≠ some "UND_ERR_REQ_RETRY" then
    .fail
  -- lines 62–65: retry budget
  else if counter > effMaxRetries opts then
    .fail
  -- lines 67–70: method allow-list
  else if opts.method ∉ effMethods opts then
    .fail
  -- lines 72–83: non-retriable status codes (`statusCode != null && (...)`)
  else if err.statusCode = some 401 ∨ err.statusCode = some 403
      ∨ err.statusCode = some 404 ∨ err.statusCode = some 405 then
    .fail
  -- lines 85–100: delay computation and scheduling
  else
    .retryIn (retryTimeoutOf opts counter (retryAfterOf dateMs now err))

/-- A run of one logical request: given the sequence of errors the physical
attempts would raise (an empty tail meaning the next attempt succeeds),
count the retries performed from a given counter value.  Mirrors the
dispatch pipeline invoking the retry callback on each failure with the
counter incremented each time. -/
def retriesFrom (dateMs : String → Int) (now : Int) (opts : DispatchOpts)
    (errs : List ErrObj) (counter : Nat) : Nat :=
  match errs with
  | [] => 0
  | e :: rest =>
    match retryClassifier dateMs now e counter opts with
    | .fail => 0
    | .retryIn _ => 1 + retriesFrom dateMs now opts rest (counter + 1)

/-- Physical attempts of one logical request whose successive failures are
`errs`: the first attempt plus every retry scheduled (the counter starts at
1 on the first failure). -/
def physicalAttempts (dateMs : String → Int) (now : Int)
    (opts : DispatchOpts) (errs : List ErrObj) : Nat :=
  1 + retriesFrom dateMs now opts errs 1

/-- Modelled from the spec: the global dispatcher is composed with
`interceptors.retry({ maxRetries: 5, minTimeout: 10000, retry(...) })`
(source lines 25–28).  The undici plumbing that makes these construction
options the `retryOptions` seen by the retry callback for a request that
supplies no per-call `retryOptions` is not in the repository; the spec
states "`minTimeout` (default 500 ms, overridden to 10000 ms by this
system's global default)". -/
def globalRetryOptions : RetryOptionsIn :=
  { maxRetries := some 5, minTimeout := some 10000 }

/-- Modelled from the spec: the retry options in effect for a request — the
per-call `retryOptions` when supplied, otherwise the interceptor's global
construction options. -/
def effectiveRetryOptions (perCall : Option RetryOptionsIn) : RetryOptionsIn :=
  perCall.getD globalRetryOptions

/-- The fields of an undici `Response` that `fetchWithLog` and
`ResponseError` read: `status`, `ok`, `url` and `statusText`. -/
structure Response where
  status : Nat
  ok : Bool
  url : String
  statusText : String
deriving DecidableEq, Repr

structure ResponseError where
  res : Response
  name : String
  message : String
  code : Nat
  statusCode : Nat
  url : String
deriving DecidableEq, Repr

/-- `new ResponseError(res)` (source lines 120–133): `super(res.statusText)`
sets the message from the status line; `name` becomes the class name;
`code` and `statusCode` both take `res.status`; `url` takes `res.url`. -/
def ResponseError.ofResponse (res : Response) : ResponseError :=
  { res := res
    name := "ResponseError"
    message := res.statusText
    code := res.status
    statusCode := res.status
    url := res.url }

/-- The `try` block of `fetchWithLog` after `fetch` resolves with a
response (source lines 145–155): status ≥ 400 throws, non-ok with status
≠ 304 throws, otherwise the response is returned. -/
def fetchCheckResponse (res : Response) : Except ResponseError Response :=
  if res.status ≥ 400 then
    .error (ResponseError.ofResponse res)
  else if res.ok = false ∧ res.status ≠ 304 then
    .error (ResponseError.ofResponse res)
  else
    .ok res

/-- A value reaching the `catch` block, as the duck-typed probes of source
lines 157–160 see it: either an object — with a `name` property iff the
first field is `some`, a `digest` property iff the second is `some` — or a
non-object value (string, number, `null`, …). -/
inductive ThrownVal where
  | obj (name : Option String) (digest : Option String)
  | nonObj
deriving DecidableEq, Repr

/-- The two console messages the `catch` block can print. -/
inductive FetchLogEvent where
  | fetchAbort
  | fetchFail
deriving DecidableEq, Repr

/-- The logging behaviour of the `catch` block (source lines 156–166):
an object with a `name` property is inspected — abort-flavoured values log
`[fetch abort]`, any other such object logs nothing (the `else` belongs to
the outer `if`); values without an object `name` property log
`[fetch fail]`. -/
def fetchCatchLog (err : ThrownVal) : Option FetchLogEvent :=
  match err with
  | .obj (some n) digest =>
    if n = "AbortError" ∨ digest = some "AbortError" then
      some .fetchAbort
    else
      none
  | .obj none _ => some .fetchFail
  | .nonObj => some .fetchFail

/-- The whole `catch` block: the log it emits paired with the value it
re-throws (`throw err`, source line 168 — always the original value). -/
def fetchCatch (err : ThrownVal) : Option FetchLogEvent × ThrownVal :=
  (fetchCatchLog err, err)

/-- A `ResponseError` as the `catch` block sees it: an object with a `name`
property (set to "ResponseError" by the constructor) and no `digest`. -/
def ResponseError.thrownVal (e : ResponseError) : ThrownVal :=
  .obj (some e.name) none

/-- The slice of undici's `RequestInit` this module touches: the headers
mapping. -/
structure RequestInit where
  headers : List (String × String)
deriving DecidableEq, Repr

/-- Lines 136–140: the default options of `fetchWithLog`, carrying only the
fixed `User-Agent` header. -/
def defaultRequestInit : RequestInit :=
  { headers := [("User-Agent", "curl/8.9.1 (https://github.com/SukkaW/Surge)")] }

/-- Line 142: `opts: RequestInit = defaultRequestInit` — the default applies
exactly when the argument is omitted (or `undefined`), modelled by `none`;
an explicit argument is used as-is, with no merging. -/
def fetchWithLogInit (opts : Option RequestInit) : RequestInit :=
  opts.getD defaultRequestInit

/-! ### Helper lemmas -/

/-- If all five guard conditions of the retry callback pass, the callback
reaches the delay computation and schedules a retry. -/
theorem retryClassifier_reach (dateMs : String → Int) (now : Int)
    (err : ErrObj) (counter : Nat) (opts : DispatchOpts)
    (hcode : err.code = some "UND_ERR_REQ_RETRY")
    (hmsg : err.message ≠ "Request path contains unescaped characters")
    (hname : err.name ≠ "AbortError")
    (hbudget : counter ≤ effMaxRetries opts)
    (hmethod : opts.method ∈ effMethods opts)
    (hstatus : err.statusCode ≠ some 401 ∧ err.statusCode ≠ some 403
      ∧ err.statusCode ≠ some 404 ∧ err.statusCode ≠ some 405) :
    retryClassifier dateMs now err counter opts
      = .retryIn (retryTimeoutOf opts counter (retryAfterOf dateMs now err)) := by
  unfold retryClassifier
  rw [if_neg (by push_neg; exact ⟨by simp [hcode], hmsg, hname⟩)]
  rw [if_neg (not_not_intro hcode)]
  rw [if_neg (by omega)]
  rw [if_neg (not_not_intro hmethod)]
  rw [if_neg (by push_neg; exact hstatus)]

/-- A scheduled retry implies the counter was within the budget. -/
theorem retryClassifier_retryIn_counter_le {dateMs : String → Int} {now : Int}
    {err : ErrObj} {counter : Nat} {opts : DispatchOpts} {d : Int}
    (h : retryClassifier dateMs now err counter opts = .retryIn d) :
    counter ≤ effMaxRetries opts := by
  unfold retryClassifier at h
  split_ifs at h with h1 h2 h3 h4
  omega

/-- The number of retries performed from counter value `c` never pushes the
counter past the budget. -/
theorem retriesFrom_add_le (dateMs : String → Int) (now : Int)
    (opts : DispatchOpts) (errs : List ErrObj) :
    ∀ counter, counter ≤ effMaxRetries opts + 1 →
      retriesFrom dateMs now opts errs counter + counter
        ≤ effMaxRetries opts + 1 := by
  induction errs with
  | nil => intro counter hc; simpa [retriesFrom] using hc
  | cons e rest ih =>
    intro counter hc
    rw [retriesFrom]
    rcases hcl : retryClassifier dateMs now e counter opts with _ | d
    · simpa using hc
    · have hle : counter ≤ effMaxRetries opts :=
        retryClassifier_retryIn_counter_le hcl
      have hrec := ih (counter + 1) (by omega)
      show 1 + retriesFrom dateMs now opts rest (counter + 1) + counter
        ≤ effMaxRetries opts + 1
      omega

/-! ### Claims -/

/-- C1: for every failed attempt whose error carries a response status code
of 401, 403, 404 or 405, the retry callback fails immediately (invokes the
callback with the original error) and schedules no retry, whatever the
counter, the options and the remaining budget. -/
theorem claim_C1_nonretriable_status_fails (dateMs : String → Int)
    (now : Int) (err : ErrObj) (counter : Nat) (opts : DispatchOpts)
    (h : err.statusCode = some 401 ∨ err.statusCode = some 403
      ∨ err.statusCode = some 404 ∨ err.statusCode = some 405) :
    retryClassifier dateMs now err counter opts = .fail := by
  unfold retryClassifier
  split_ifs with h1 h2 h3 h4 <;> simp_all

/-- C1 witness: a 404 error with the connection-layer retry code, an allowed
method and a counter well under the budget is still failed immediately. -/
theorem claim_C1_nonretriable_status_fails_witness :
    retryClassifier (fun _ => 0) 0
      { code := some "UND_ERR_REQ_RETRY", statusCode := some 404 } 1
      { method := "GET" } = .fail :=
  claim_C1_nonretriable_status_fails (fun _ => 0) 0
    { code := some "UND_ERR_REQ_RETRY", statusCode := some 404 } 1
    { method := "GET" } (by decide)

/-- C2: an unescaped-characters/request-malformation error, an explicit
abort, or any error whose code is not `UND_ERR_REQ_RETRY`, is failed
immediately with the original error, regardless of remaining budget. -/
theorem claim_C2_nonretriable_transport_and_foreign_fail
    (dateMs : String → Int) (now : Int) (err : ErrObj) (counter : Nat)
    (opts : DispatchOpts)
    (h : err.code = some "ERR_UNESCAPED_CHARACTERS"
      ∨ err.message = "Request path contains unescaped characters"
      ∨ err.name = "AbortError"
      ∨ err.code ≠ some "UND_ERR_REQ_RETRY") :
    retryClassifier dateMs now err counter opts = .fail := by
  unfold retryClassifier
  split_ifs with h1 h2 <;> simp_all

/-- C2 witness: an explicit abort with budget remaining is failed
immediately. -/
theorem claim_C2_nonretriable_transport_and_foreign_fail_witness :
    retryClassifier (fun _ => 0) 0
      { code := some "UND_ERR_REQ_RETRY", name := "AbortError" } 1
      { method := "GET" } = .fail :=
  claim_C2_nonretriable_transport_and_foreign_fail (fun _ => 0) 0
    { code := some "UND_ERR_REQ_RETRY", name := "AbortError" } 1
    { method := "GET" } (by decide)

/-- C3: whenever the retry-state counter exceeds the effective `maxRetries`
(default 5), the callback fails with the original error and schedules no
retry; consequently one logical request makes at most `maxRetries + 1`
physical attempts, for any sequence of failures. -/
theorem claim_C3_retry_budget (dateMs : String → Int) (now : Int)
    (opts : DispatchOpts) :
    (∀ (err : ErrObj) (counter : Nat), counter > effMaxRetries opts →
      retryClassifier dateMs now err counter opts = .fail)
    ∧ ∀ errs : List ErrObj,
      physicalAttempts dateMs now opts errs ≤ effMaxRetries opts + 1 := by
  constructor
  · intro err counter hc
    unfold retryClassifier
    split_ifs with h1 h2 <;> rfl
  · intro errs
    have := retriesFrom_add_le dateMs now opts errs 1 (by omega)
    unfold physicalAttempts
    omega

/-- C3 witness: with the default budget of 5, a counter of 6 is failed, and
a request facing eight identical retryable failures makes at most six
physical attempts. -/
theorem claim_C3_retry_budget_witness :
    retryClassifier (fun _ => 0) 0 { code := some "UND_ERR_REQ_RETRY" } 6
      { method := "GET" } = .fail
    ∧ physicalAttempts (fun _ => 0) 0 { method := "GET" }
        (List.replicate 8 { code := some "UND_ERR_REQ_RETRY" }) ≤ 6 :=
  ⟨(claim_C3_retry_budget (fun _ => 0) 0 { method := "GET" }).1
      { code := some "UND_ERR_REQ_RETRY" } 6 (by decide),
    (claim_C3_retry_budget (fun _ => 0) 0 { method := "GET" }).2
      (List.replicate 8 { code := some "UND_ERR_REQ_RETRY" })⟩

/-- C4: for a retried attempt carrying a `Retry-After` header, a numeric
header value is interpreted as seconds and scaled by 1000, a non-numeric
value is parsed as an HTTP date and the delay is that date minus the
current time in milliseconds, and whenever the resulting value is positive
it is the scheduled delay, clamped to at most `maxTimeout`. -/
theorem claim_C4_retry_after_header_delay (dateMs : String → Int)
    (now : Int) (err : ErrObj) (counter : Nat) (opts : DispatchOpts)
    (h : String)
    (hcode : err.code = some "UND_ERR_REQ_RETRY")
    (hmsg : err.message ≠ "Request path contains unescaped characters")
    (hname : err.name ≠ "AbortError")
    (hbudget : counter ≤ effMaxRetries opts)
    (hmethod : opts.method ∈ effMethods opts)
    (hstatus : err.statusCode ≠ some 401 ∧ err.statusCode ≠ some 403
      ∧ err.statusCode ≠ some 404 ∧ err.statusCode ≠ some 405)
    (hheader : err.headers.bind (fun hs => List.lookup "retry-after" hs)
      = some h)
    (hne : h ≠ "") :
    (∀ n : Nat, jsHeaderNumber h = some n → 0 < n →
      retryClassifier dateMs now err counter opts
        = .retryIn (min ((n : Int) * 1000) (effMaxTimeout opts : Int)))
    ∧ (jsHeaderNumber h = none → 0 < dateMs h - now →
      retryClassifier dateMs now err counter opts
        = .retryIn (min (dateMs h - now) (effMaxTimeout opts : Int))) := by
  have hra : retryAfterOf dateMs now err = parseRetryAfter dateMs now h := by
    unfold retryAfterOf
    rw [hheader]
    simp [hne]
  have hreach := retryClassifier_reach dateMs now err counter opts hcode hmsg
    hname hbudget hmethod hstatus
  constructor
  · intro n hn hpos
    have hp : parseRetryAfter dateMs now h = (n : Int) * 1000 := by
      unfold parseRetryAfter
      rw [hn]
    rw [hreach, hra, hp]
    unfold retryTimeoutOf
    rw [if_pos (by omega)]
  · intro hn hpos
    have hp : parseRetryAfter dateMs now h = dateMs h - now := by
      unfold parseRetryAfter calculateRetryAfterHeader
      rw [hn]
    rw [hreach, hra, hp]
    unfold retryTimeoutOf
    rw [if_pos (by omega)]

/-- C4 witness: a `Retry-After: 2` header yields a delay of exactly 2000 ms
under the default 30000 ms cap. -/
theorem claim_C4_retry_after_header_delay_witness :
    retryClassifier (fun _ => 0) 0
      { code := some "UND_ERR_REQ_RETRY",
        headers := some [("retry-after", "2")] } 1
      { method := "GET" } = .retryIn 2000 := by
  have hc := (claim_C4_retry_after_header_delay (fun _ => 0) 0
    { code := some "UND_ERR_REQ_RETRY",
      headers := some [("retry-after", "2")] } 1 { method := "GET" } "2"
    rfl (by decide) (by decide) (by decide) (by decide) (by decide)
    (by decide) (by decide)).1 2 (by decide) (by decide)
  have he : effMaxTimeout ({ method := "GET" } : DispatchOpts) = 30000 := rfl
  rw [he] at hc
  norm_num at hc
  exact hc

/-- C5: without a positive Retry-After value the scheduled delay is
`min(minTimeout · timeoutFactor^(counter − 1), maxTimeout)`; with
`minTimeout = 10000`, `maxTimeout = 30000`, `timeoutFactor = 2` that is
10000 ms at counter 1 (before attempt 2), 20000 ms at counter 2 (before
attempt 3), and 30000 ms at every counter ≥ 3 (before attempt 4 and every
later attempt). -/
theorem claim_C5_exponential_backoff (dateMs : String → Int) (now : Int)
    (err : ErrObj) (counter : Nat) (opts : DispatchOpts)
    (hcode : err.code = some "UND_ERR_REQ_RETRY")
    (hmsg : err.message ≠ "Request path contains unescaped characters")
    (hname : err.name ≠ "AbortError")
    (hbudget : counter ≤ effMaxRetries opts)
    (hmethod : opts.method ∈ effMethods opts)
    (hstatus : err.statusCode ≠ some 401 ∧ err.statusCode ≠ some 403
      ∧ err.statusCode ≠ some 404 ∧ err.statusCode ≠ some 405)
    (hra : ¬ retryAfterOf dateMs now err > 0) :
    retryClassifier dateMs now err counter opts
      = .retryIn ((min
          (effMinTimeout opts * effTimeoutFactor opts ^ (counter - 1))
          (effMaxTimeout opts) : Nat) : Int)
    ∧ (effMinTimeout opts = 10000 → effMaxTimeout opts = 30000 →
      effTimeoutFactor opts = 2 →
      (counter = 1 →
        retryClassifier dateMs now err counter opts = .retryIn 10000)
      ∧ (counter = 2 →
        retryClassifier dateMs now err counter opts = .retryIn 20000)
      ∧ (3 ≤ counter →
        retryClassifier dateMs now err counter opts = .retryIn 30000)) := by
  have hreach := retryClassifier_reach dateMs now err counter opts hcode hmsg
    hname hbudget hmethod hstatus
  have hmain : retryClassifier dateMs now err counter opts
      = .retryIn ((min
        (effMinTimeout opts * effTimeoutFactor opts ^ (counter - 1))
        (effMaxTimeout opts) : Nat) : Int) := by
    rw [hreach]
    unfold retryTimeoutOf
    rw [if_neg hra]
  refine ⟨hmain, fun hmin hmax hfac => ⟨?_, ?_, ?_⟩⟩
  · intro hcounter
    rw [hmain, hmin, hmax, hfac, hcounter]
    norm_num
  · intro hcounter
    rw [hmain, hmin, hmax, hfac, hcounter]
    norm_num
  · intro hcounter
    rw [hmain, hmin, hmax, hfac]
    have h4 : (4 : Nat) ≤ 2 ^ (counter - 1) := by
      calc (4 : Nat) = 2 ^ 2 := by norm_num
        _ ≤ 2 ^ (counter - 1) :=
          Nat.pow_le_pow_right (by norm_num) (by omega)
    have hclamp : min (10000 * 2 ^ (counter - 1)) 30000 = 30000 := by
      set x := 2 ^ (counter - 1) with hx
      omega
    rw [hclamp]
    norm_num

/-- C5 witness: with the global options (`minTimeout = 10000`), counter 3
yields the clamped delay 30000 ms. -/
theorem claim_C5_exponential_backoff_witness :
    retryClassifier (fun _ => 0) 0 { code := some "UND_ERR_REQ_RETRY" } 3
      { method := "GET", retryOptions := some (effectiveRetryOptions none) }
      = .retryIn 30000 :=
  ((claim_C5_exponential_backoff (fun _ => 0) 0
    { code := some "UND_ERR_REQ_RETRY" } 3
    { method := "GET", retryOptions := some (effectiveRetryOptions none) }
    rfl (by decide) (by decide) (by decide) (by decide) (by decide)
    (by decide)).2 rfl rfl rfl).2.2 (by omega)

/-- C6: `minTimeout` defaults to 500 ms at the destructuring site, the
interceptor's global construction options carry 10000 ms, and the backoff
of a request supplying no per-call `retryOptions` therefore uses
`minTimeout = 10000` (first delay 10000 ms rather than 500 ms). -/
theorem claim_C6_global_min_timeout_override :
    globalRetryOptions.minTimeout = some 10000
    ∧ effMinTimeout { method := "GET" } = 500
    ∧ effMinTimeout
        { method := "GET", retryOptions := some (effectiveRetryOptions none) }
      = 10000
    ∧ retryClassifier (fun _ => 0) 0 { code := some "UND_ERR_REQ_RETRY" } 1
        { method := "GET", retryOptions := some (effectiveRetryOptions none) }
      = .retryIn 10000
    ∧ retryClassifier (fun _ => 0) 0 { code := some "UND_ERR_REQ_RETRY" } 1
        { method := "GET" } = .retryIn 500 := by
  refine ⟨rfl, rfl, rfl, by decide, by decide⟩

/-- C7: for a request whose method is outside the configured methods set,
the retry callback fails every error immediately, so the failure is
surfaced on the first failed attempt and a run performs zero retries
(exactly one physical attempt). -/
theorem claim_C7_method_allow_list (dateMs : String → Int) (now : Int)
    (opts : DispatchOpts) (h : opts.method ∉ effMethods opts) :
    (∀ (err : ErrObj) (counter : Nat),
      retryClassifier dateMs now err counter opts = .fail)
    ∧ ∀ errs : List ErrObj, physicalAttempts dateMs now opts errs = 1 := by
  have hfail : ∀ (err : ErrObj) (counter : Nat),
      retryClassifier dateMs now err counter opts = .fail := by
    intro err counter
    unfold retryClassifier
    split_ifs with h1 h2 h3 <;> rfl
  refine ⟨hfail, fun errs => ?_⟩
  unfold physicalAttempts
  cases errs with
  | nil => rfl
  | cons e rest =>
    rw [retriesFrom, hfail e 1]
    rfl

/-- C7 witness: a POST request's connection-layer retryable failure is
failed immediately and the run makes exactly one physical attempt. -/
theorem claim_C7_method_allow_list_witness :
    retryClassifier (fun _ => 0) 0 { code := some "UND_ERR_REQ_RETRY" } 1
      { method := "POST" } = .fail
    ∧ physicalAttempts (fun _ => 0) 0 { method := "POST" }
        [{ code := some "UND_ERR_REQ_RETRY" }] = 1 :=
  ⟨(claim_C7_method_allow_list (fun _ => 0) 0 { method := "POST" }
      (by decide)).1 { code := some "UND_ERR_REQ_RETRY" } 1,
    (claim_C7_method_allow_list (fun _ => 0) 0 { method := "POST" }
      (by decide)).2 [{ code := some "UND_ERR_REQ_RETRY" }]⟩

/-- C8: `fetchWithLog` throws a `ResponseError` exactly when the fetched
response has status ≥ 400 or is non-ok with status ≠ 304 (so a 304 is
returned as success), and the thrown error carries the status as both
`code` and `statusCode`, the response's URL, and the status line as its
message. -/
theorem claim_C8_response_error_iff (res : Response) :
    (fetchCheckResponse res = .error (ResponseError.ofResponse res)
      ↔ res.status ≥ 400 ∨ (res.ok = false ∧ res.status ≠ 304))
    ∧ (¬(res.status ≥ 400 ∨ (res.ok = false ∧ res.status ≠ 304)) →
      fetchCheckResponse res = .ok res)
    ∧ (ResponseError.ofResponse res).code = res.status
    ∧ (ResponseError.ofResponse res).statusCode = res.status
    ∧ (ResponseError.ofResponse res).url = res.url
    ∧ (ResponseError.ofResponse res).message = res.statusText := by
  refine ⟨?_, ?_, rfl, rfl, rfl, rfl⟩
  · unfold fetchCheckResponse
    split_ifs with h1 h2
    · exact iff_of_true rfl (Or.inl h1)
    · exact iff_of_true rfl (Or.inr h2)
    · refine iff_of_false (by simp) ?_
      intro hcon
      rcases hcon with hc | hc
      · exact h1 hc
      · exact h2 hc
  · intro hno
    unfold fetchCheckResponse
    split_ifs with h1 h2
    · exact absurd (Or.inl h1) hno
    · exact absurd (Or.inr h2) hno
    · rfl

/-- C8 witness: a 404 response is converted into the structured error, a
304 response is returned as success. -/
theorem claim_C8_response_error_iff_witness :
    fetchCheckResponse
        { status := 404, ok := false, url := "https://example.com/a",
          statusText := "Not Found" }
      = .error (ResponseError.ofResponse
        { status := 404, ok := false, url := "https://example.com/a",
          statusText := "Not Found" })
    ∧ fetchCheckResponse
        { status := 304, ok := false, url := "https://example.com/a",
          statusText := "Not Modified" }
      = .ok { status := 304, ok := false, url := "https://example.com/a",
              statusText := "Not Modified" } :=
  ⟨(claim_C8_response_error_iff
      { status := 404, ok := false, url := "https://example.com/a",
        statusText := "Not Found" }).1.mpr (by decide),
    (claim_C8_response_error_iff
      { status := 304, ok := false, url := "https://example.com/a",
        statusText := "Not Modified" }).2.1 (by decide)⟩

/-- C9: the claim says every error thrown inside `fetchWithLog` is logged
(aborts distinguished) and then re-thrown unchanged.  The re-throw part
holds, but the logging part fails on the code: an object error whose
`name` is not abort-flavoured — such as every `ResponseError` — produces
no log at all, because the `else` branch of the source is attached to the
outer `'name' in err` test rather than to the abort test.  This theorem
evaluates the `catch` block at such a failing input, and checks the cases
that do log. -/
theorem claim_C9_catch_log_at_failing_input :
    fetchCatch ((ResponseError.ofResponse
        { status := 500, ok := false, url := "https://example.com/x",
          statusText := "Internal Server Error" }).thrownVal)
      = (none, (ResponseError.ofResponse
        { status := 500, ok := false, url := "https://example.com/x",
          statusText := "Internal Server Error" }).thrownVal)
    ∧ fetchCatchLog (.obj (some "AbortError") none) = some .fetchAbort
    ∧ fetchCatchLog (.obj (some "Error") (some "AbortError"))
      = some .fetchAbort
    ∧ fetchCatchLog .nonObj = some .fetchFail
    ∧ fetchCatchLog (.obj none none) = some .fetchFail := by
  refine ⟨?_, by decide, by decide, by decide, by decide⟩
  decide

/-- C10: an explicit options argument to `fetchWithLog` replaces
`defaultRequestInit` entirely — the default `User-Agent` header applies
only when the argument is omitted and is never merged into caller-supplied
options. -/
theorem claim_C10_opts_replace_default :
    fetchWithLogInit none = defaultRequestInit
    ∧ (fetchWithLogInit none).headers
      = [("User-Agent", "curl/8.9.1 (https://github.com/SukkaW/Surge)")]
    ∧ (∀ o : RequestInit, fetchWithLogInit (some o) = o)
    ∧ (∀ o : RequestInit, "User-Agent" ∉ o.headers.map Prod.fst →
      "User-Agent" ∉ (fetchWithLogInit (some o)).headers.map Prod.fst) :=
  ⟨rfl, rfl, fun _ => rfl, fun _ hua => hua⟩

/-- C10 witness: caller-supplied options without a User-Agent header keep
none after passing through `fetchWithLog`'s defaulting. -/
theorem claim_C10_opts_replace_default_witness :
    "User-Agent" ∉ (fetchWithLogInit
      (some { headers := [("Accept", "text/plain")] })).headers.map
        Prod.fst :=
  claim_C10_opts_replace_default.2.2.2
    { headers := [("Accept", "text/plain")] } (by decide)

end Surge
